import Mathlib

/-!
Shallow embedding of `src/UARTImplementation.cpp`: a sketch of a UART driver
with a configure / open / close / read / write API, a lifecycle state
machine, and a condition-variable handoff of received bytes.

Modelling notes.
* The C++ class state (`uartId`, `state`, `baudRate`, `dataBits`, `parity`,
  `stopBits`, `commMethod`, `dataReady`, `readBuffer`) becomes the `UART`
  structure.  `commMethod` is uninitialized until `open` in the source, so it
  is modelled as `Option CommMethod` starting at `none`.
* C++ exceptions become an explicit error value; every operation returns its
  outcome paired with the post-call object state (unchanged when it throws,
  since all throws in the source happen before any mutation).
* `configure` takes the raw underlying integer of the `UARTConfig` enum
  (`BAUD_RATE = 0`, `DATA_BITS = 1`, `PARITY = 2`, `STOP_BITS = 3`), because
  the source's `switch` has a `default:` branch that is reachable only via an
  out-of-range enum value.
* `read` can block in `cv.wait(lock, [this]{ return dataReady; })`; a call
  that suspends with no producer to wake it is modelled by the outcome
  `ReadResult.blocked`.
* The background threads `asyncRead` / `dmaRead` only spin calling
  `cv.notify_one()`; they never append bytes and never set `dataReady`
  (the hardware interaction is a TODO in the source), so a notify from them
  alone never lets `cv.wait`'s predicate become true.  The receive-completion
  append itself is therefore modelled from the spec (`UART.appendReceived`).
-/

/-- Configuration parameters of the C++ `enum class UARTConfig`, kept as the
raw underlying integer so that the `switch`'s `default:` branch (out-of-range
enum value) is representable. -/
def UARTConfig.BAUD_RATE : Int := 0

/-- Raw value of `UARTConfig::DATA_BITS`. -/
def UARTConfig.DATA_BITS : Int := 1

/-- Raw value of `UARTConfig::PARITY`. -/
def UARTConfig.PARITY : Int := 2

/-- Raw value of `UARTConfig::STOP_BITS`. -/
def UARTConfig.STOP_BITS : Int := 3

deriving instance DecidableEq for Except

/-- Lifecycle states, from `enum class UARTState`. -/
inductive UARTState
  | CLOSED
  | OPEN
  | CONFIGURED
deriving Repr, DecidableEq

/-- Communication methods, from `enum class CommMethod`. -/
inductive CommMethod
  | POLLING
  | INTERRUPT
  | DMA
deriving Repr, DecidableEq

/-- The exceptions thrown by the source, one constructor per throw site. -/
inductive UARTError
  | notClosedForConfig
  | invalidConfigArg
  | alreadyOpen
  | notConfigured
  | notOpen
deriving Repr, DecidableEq

/-- The exact message string each throw site passes to its exception. -/
def UARTError.message : UARTError → String
  | .notClosedForConfig => "UART must be closed before configuration."
  | .invalidConfigArg => "Invalid UART configuration."
  | .alreadyOpen => "UART is already open."
  | .notConfigured => "UART must be configured before opening."
  | .notOpen => "UART is not open."

/-- The mutable state of one `UART` object. -/
structure UART where
  uartId : Int
  state : UARTState
  baudRate : Int
  dataBits : Int
  parity : Bool
  stopBits : Int
  commMethod : Option CommMethod
  dataReady : Bool
  readBuffer : List Char
deriving Repr, DecidableEq

/-- The constructor `UART::UART(int id)`: default configuration, `CLOSED`
state, `dataReady = false`, empty buffer; `commMethod` is left unset. -/
def UART.init (id : Int) : UART :=
  { uartId := id
    state := UARTState.CLOSED
    baudRate := 9600
    dataBits := 8
    parity := false
    stopBits := 1
    commMethod := none
    dataReady := false
    readBuffer := [] }

/-- `UART::configure(UARTConfig config, int value)`: throws unless
`state == CLOSED`; the `switch` sets exactly one field (the `default:`
branch throws `std::invalid_argument`); on success `state = CONFIGURED`. -/
def UART.configure (d : UART) (config value : Int) :
    Except UARTError Unit × UART :=
  if d.state ≠ UARTState.CLOSED then
    (Except.error UARTError.notClosedForConfig, d)
  else if config = UARTConfig.BAUD_RATE then
    (Except.ok (), { d with baudRate := value, state := UARTState.CONFIGURED })
  else if config = UARTConfig.DATA_BITS then
    (Except.ok (), { d with dataBits := value, state := UARTState.CONFIGURED })
  else if config = UARTConfig.PARITY then
    (Except.ok (),
      { d with parity := decide (value ≠ 0), state := UARTState.CONFIGURED })
  else if config = UARTConfig.STOP_BITS then
    (Except.ok (), { d with stopBits := value, state := UARTState.CONFIGURED })
  else
    (Except.error UARTError.invalidConfigArg, d)

/-- `UART::open(CommMethod method)`: throws `"UART is already open."` if
`OPEN`, `"UART must be configured before opening."` if not `CONFIGURED`;
otherwise records the method and moves to `OPEN`.  (For `INTERRUPT`/`DMA` it
also detaches a background thread; that thread's body is a notify-only loop
with the hardware interaction left TODO, so it contributes no state change
here.) -/
def UART.openUART (d : UART) (method : CommMethod) :
    Except UARTError Unit × UART :=
  if d.state = UARTState.OPEN then
    (Except.error UARTError.alreadyOpen, d)
  else if d.state ≠ UARTState.CONFIGURED then
    (Except.error UARTError.notConfigured, d)
  else
    (Except.ok (), { d with state := UARTState.OPEN, commMethod := some method })

/-- `UART::close()`: throws `"UART is not open."` unless `OPEN`; otherwise
sets `state = CLOSED`.  No other member is touched, and the body contains no
`cv.notify_one()`/`notify_all()` call. -/
def UART.close (d : UART) : Except UARTError Unit × UART :=
  if d.state ≠ UARTState.OPEN then
    (Except.error UARTError.notOpen, d)
  else
    (Except.ok (), { d with state := UARTState.CLOSED })

/-- The predicate of `cv.wait(lock, [this] { return dataReady; })` in
`UART::read`: it consults only `dataReady`, never `state`. -/
def UART.readWaitCondition (d : UART) : Bool :=
  d.dataReady

/-- `UART::close` performs no condition-variable notification: its body is
the state check plus `state = CLOSED;` only.  A thread suspended in
`cv.wait` is therefore not woken by `close`. -/
def closeNotifiesReader : Bool := false

/-- Outcome of one `UART::read` call. -/
inductive ReadResult
  | err (e : UARTError)
  | blocked
  | bytes (out : List Char) (count : Nat)
deriving Repr, DecidableEq

/-- `UART::read(char* buffer, int length)`: throws unless `OPEN`; then, when
`commMethod == POLLING`, runs the polling branch; then waits on
`cv.wait(lock, [this]{ return dataReady; })`; once the predicate holds it
drains `min(length, readBuffer.size())` bytes from the front of the buffer,
erases them, sets `dataReady = false` and returns the count.

The polling branch's body is a TODO in the source ("read register/peripheral
in a loop with some delay built in").  Modelled from the spec: the bounded
retry loop acquires some chunk `polled` of bytes from the backend within the
timeout budget (empty on timeout), appends it to the buffer and raises
`dataReady` when it is non-empty.  For non-`POLLING` methods `polled` is
ignored, as in the source.

A call that reaches `cv.wait` with the predicate still false suspends with
nothing in the source ever making the predicate true; that is the
`ReadResult.blocked` outcome. -/
def UART.read (d : UART) (length : Nat) (polled : List Char) :
    ReadResult × UART :=
  if d.state ≠ UARTState.OPEN then
    (ReadResult.err UARTError.notOpen, d)
  else
    let d1 :=
      if d.commMethod = some CommMethod.POLLING then
        { d with readBuffer := d.readBuffer ++ polled,
                 dataReady := d.dataReady || !polled.isEmpty }
      else d
    if d1.dataReady then
      let n := min length d1.readBuffer.length
      (ReadResult.bytes (d1.readBuffer.take n) n,
        { d1 with readBuffer := d1.readBuffer.drop n, dataReady := false })
    else
      (ReadResult.blocked, d1)

/-- `UART::write(const char* data, int length)`: throws unless `OPEN`.  The
transmit body is a TODO in the source.  Modelled from the spec: it delegates
synchronously to the backend's transmit primitive exactly once, for however
many bytes the backend accepts in that one call, and returns that count;
`backendTransmit` is the abstract backend capability. -/
def UART.write (d : UART) (data : List Char)
    (backendTransmit : List Char → Nat) : Except UARTError Nat × UART :=
  if d.state ≠ UARTState.OPEN then
    (Except.error UARTError.notOpen, d)
  else
    (Except.ok (backendTransmit data), d)

/-- Modelled from the spec: the backend receive-completion callback (the
hardware interaction left TODO in `asyncRead`/`dmaRead`) appends the received
chunk to the back of `readBuffer` and signals data ready.  Per the spec the
producer signals only after appending at least one byte. -/
def UART.appendReceived (d : UART) (chunk : List Char) : UART :=
  { d with readBuffer := d.readBuffer ++ chunk, dataReady := true }

/-- States reachable from a freshly constructed driver through the public
API (`configure`, `openUART`, `close`, `read`, `write`) and the
receive-completion producer, which runs only while `OPEN` and appends a
non-empty chunk. -/
inductive Reachable : UART → Prop
  | init (id : Int) : Reachable (UART.init id)
  | configure (d : UART) (config value : Int) :
      Reachable d → Reachable (d.configure config value).2
  | openStep (d : UART) (m : CommMethod) :
      Reachable d → Reachable (d.openUART m).2
  | closeStep (d : UART) :
      Reachable d → Reachable (d.close).2
  | readStep (d : UART) (length : Nat) (polled : List Char) :
      Reachable d → Reachable (d.read length polled).2
  | writeStep (d : UART) (data : List Char) (f : List Char → Nat) :
      Reachable d → Reachable (d.write data f).2
  | append (d : UART) (chunk : List Char) :
      Reachable d → d.state = UARTState.OPEN → chunk ≠ [] →
      Reachable (d.appendReceived chunk)

/-- A concrete run used below: fresh driver 1. -/
def sample0 : UART := UART.init 1

/-- After `configure(BAUD_RATE, 115200)`. -/
def sample1 : UART := (sample0.configure UARTConfig.BAUD_RATE 115200).2

/-- After `open(INTERRUPT)`. -/
def sample2 : UART := (sample1.openUART CommMethod.INTERRUPT).2

/-- After the producer delivers `['a', 'b']`. -/
def sample3 : UART := sample2.appendReceived ['a', 'b']

/-- After `read(1)`: one byte drained, one byte left buffered. -/
def sample4 : UART := (sample3.read 1 []).2

/-- The sample run stays inside the reachable set. -/
theorem sample4_reachable : Reachable sample4 := by
  have h0 : Reachable sample0 := Reachable.init 1
  have h1 : Reachable sample1 :=
    Reachable.configure sample0 UARTConfig.BAUD_RATE 115200 h0
  have h2 : Reachable sample2 :=
    Reachable.openStep sample1 CommMethod.INTERRUPT h1
  have h3 : Reachable sample3 :=
    Reachable.append sample2 ['a', 'b'] h2 (by decide) (by decide)
  exact Reachable.readStep sample3 1 [] h3

/-- Reachability of the intermediate state with data pending. -/
theorem sample3_reachable : Reachable sample3 := by
  have h0 : Reachable sample0 := Reachable.init 1
  have h1 : Reachable sample1 :=
    Reachable.configure sample0 UARTConfig.BAUD_RATE 115200 h0
  have h2 : Reachable sample2 :=
    Reachable.openStep sample1 CommMethod.INTERRUPT h1
  exact Reachable.append sample2 ['a', 'b'] h2 (by decide) (by decide)

/-- A driver opened with the `POLLING` method and no data pending. -/
def samplePoll : UART :=
  (((UART.init 2).configure UARTConfig.BAUD_RATE 115200).2.openUART
    CommMethod.POLLING).2

/-- `configure` never touches `dataReady` or `readBuffer`, on any branch. -/
theorem configure_receive_frame (d : UART) (c v : Int) :
    (d.configure c v).2.dataReady = d.dataReady ∧
    (d.configure c v).2.readBuffer = d.readBuffer := by
  unfold UART.configure
  repeat' split
  all_goals exact ⟨rfl, rfl⟩

/-- `openUART` never touches `dataReady` or `readBuffer`, on any branch. -/
theorem openUART_receive_frame (d : UART) (m : CommMethod) :
    (d.openUART m).2.dataReady = d.dataReady ∧
    (d.openUART m).2.readBuffer = d.readBuffer := by
  unfold UART.openUART
  repeat' split
  all_goals exact ⟨rfl, rfl⟩

/-- `close` never touches `dataReady` or `readBuffer`, on any branch. -/
theorem close_receive_frame (d : UART) :
    (d.close).2.dataReady = d.dataReady ∧
    (d.close).2.readBuffer = d.readBuffer := by
  unfold UART.close
  repeat' split
  all_goals exact ⟨rfl, rfl⟩

/-- `write` leaves the driver unchanged, on any branch. -/
theorem write_state_frame (d : UART) (data : List Char)
    (f : List Char → Nat) : (d.write data f).2 = d := by
  unfold UART.write
  split
  all_goals rfl

/-- After `read`, either the driver is unchanged (the `NotOpen` throw) or
`dataReady` is false: the suspended branch has a false wait predicate and the
drain branch clears the flag unconditionally. -/
theorem read_post_dataReady (d : UART) (length : Nat) (polled : List Char) :
    (d.read length polled).2 = d ∨
    (d.read length polled).2.dataReady = false := by
  unfold UART.read
  dsimp only
  repeat' split
  all_goals first
    | exact Or.inl rfl
    | exact Or.inr rfl
    | (rename_i h; exact Or.inr (by simpa using h))

/-- Claim C1: lifecycle preconditions are enforced on every call — `open`
fails with AlreadyOpen from `OPEN` and with NotConfigured from `CLOSED`,
succeeding exactly from `CONFIGURED`; `close` and `read` fail with NotOpen
whenever the state is not `OPEN`. -/
theorem uart_lifecycle_preconditions (d : UART) (m : CommMethod)
    (length : Nat) (polled : List Char) :
    (d.state = UARTState.OPEN →
      d.openUART m = (Except.error UARTError.alreadyOpen, d)) ∧
    (d.state = UARTState.CLOSED →
      d.openUART m = (Except.error UARTError.notConfigured, d)) ∧
    (d.state = UARTState.CONFIGURED →
      (d.openUART m).1 = Except.ok () ∧
      (d.openUART m).2.state = UARTState.OPEN) ∧
    (d.state ≠ UARTState.OPEN →
      d.close = (Except.error UARTError.notOpen, d)) ∧
    (d.state ≠ UARTState.OPEN →
      d.read length polled = (ReadResult.err UARTError.notOpen, d)) := by
  refine ⟨fun h => ?_, fun h => ?_, fun h => ?_, fun h => ?_, fun h => ?_⟩ <;>
    simp [UART.openUART, UART.close, UART.read, h]

/-- Witness for C1 at concrete drivers in each of the three states. -/
theorem uart_lifecycle_preconditions_witness :
    sample2.openUART CommMethod.DMA =
      (Except.error UARTError.alreadyOpen, sample2) ∧
    sample0.openUART CommMethod.INTERRUPT =
      (Except.error UARTError.notConfigured, sample0) ∧
    ((sample1.openUART CommMethod.INTERRUPT).1 = Except.ok () ∧
      (sample1.openUART CommMethod.INTERRUPT).2.state = UARTState.OPEN) ∧
    sample0.close = (Except.error UARTError.notOpen, sample0) ∧
    sample1.read 5 [] = (ReadResult.err UARTError.notOpen, sample1) :=
  ⟨(uart_lifecycle_preconditions sample2 CommMethod.DMA 5 []).1 (by decide),
   (uart_lifecycle_preconditions sample0 CommMethod.INTERRUPT 5 []).2.1
     (by decide),
   (uart_lifecycle_preconditions sample1 CommMethod.INTERRUPT 5 []).2.2.1
     (by decide),
   (uart_lifecycle_preconditions sample0 CommMethod.INTERRUPT 5 []).2.2.2.1
     (by decide),
   (uart_lifecycle_preconditions sample1 CommMethod.INTERRUPT 5 []).2.2.2.2
     (by decide)⟩

/-- Claim C2 (refuted — the code contradicts its own `main`, which issues
four consecutive configure calls): the first `configure` call succeeds and
moves the state to `CONFIGURED`, whereupon the second call — the very
sequence `main` performs — throws "UART must be closed before configuration."
instead of succeeding, because `configure` demands `state == CLOSED`
strictly. -/
theorem configure_second_call_fails :
    (sample0.configure UARTConfig.BAUD_RATE 115200).1 = Except.ok () ∧
    sample1.state = UARTState.CONFIGURED ∧
    (sample1.configure UARTConfig.DATA_BITS 8).1 =
      Except.error UARTError.notClosedForConfig ∧
    (sample1.configure UARTConfig.DATA_BITS 8).2 = sample1 := by
  decide

/-- Claim C3 counterexample: `sample4` is reachable (append `['a','b']`,
then `read 1`), is `OPEN` and holds one available byte, yet `read 10`
returns no bytes and removes nothing — it suspends on the `dataReady` flag,
which the previous read cleared unconditionally. -/
theorem read_blocks_despite_available_bytes :
    Reachable sample4 ∧
    sample4.state = UARTState.OPEN ∧
    sample4.readBuffer = ['b'] ∧
    (sample4.read 10 []).1 = ReadResult.blocked ∧
    (sample4.read 10 []).2 = sample4 :=
  ⟨sample4_reachable, by decide, by decide, by decide, by decide⟩

/-- Claim C3 as amended: on an `OPEN`, non-polling driver whose `dataReady`
flag is set (the condition `read`'s wait is gated on), `read maxLength`
returns exactly the first `min maxLength available` buffered bytes together
with their count, leaves exactly the remaining bytes buffered, never exceeds
`maxLength`, and the bytes returned and the bytes left are a front/back
split of the buffer (FIFO order preserved). -/
theorem read_drains_min_of_available (d : UART) (length : Nat)
    (polled : List Char) (hs : d.state = UARTState.OPEN)
    (hm : d.commMethod ≠ some CommMethod.POLLING)
    (hr : d.dataReady = true) :
    (d.read length polled).1 =
      ReadResult.bytes (d.readBuffer.take (min length d.readBuffer.length))
        (min length d.readBuffer.length) ∧
    (d.read length polled).2.readBuffer =
      d.readBuffer.drop (min length d.readBuffer.length) ∧
    min length d.readBuffer.length ≤ length ∧
    (d.readBuffer.take (min length d.readBuffer.length)).length =
      min length d.readBuffer.length ∧
    d.readBuffer.take (min length d.readBuffer.length) ++
      d.readBuffer.drop (min length d.readBuffer.length) = d.readBuffer := by
  refine ⟨?_, ?_, Nat.min_le_left _ _, ?_, List.take_append_drop _ _⟩ <;>
    simp [UART.read, hs, hm, hr, List.length_take, Nat.min_assoc]

/-- Witness for the amended C3 at `sample3` (buffer `['a','b']`), reading
one byte. -/
theorem read_drains_min_of_available_witness :
    (sample3.read 1 []).1 =
      ReadResult.bytes
        (sample3.readBuffer.take (min 1 sample3.readBuffer.length))
        (min 1 sample3.readBuffer.length) ∧
    (sample3.read 1 []).2.readBuffer =
      sample3.readBuffer.drop (min 1 sample3.readBuffer.length) ∧
    min 1 sample3.readBuffer.length ≤ 1 ∧
    (sample3.readBuffer.take (min 1 sample3.readBuffer.length)).length =
      min 1 sample3.readBuffer.length ∧
    sample3.readBuffer.take (min 1 sample3.readBuffer.length) ++
      sample3.readBuffer.drop (min 1 sample3.readBuffer.length) =
      sample3.readBuffer :=
  read_drains_min_of_available sample3 1 [] (by decide) (by decide) (by decide)

/-- Claim C4 counterexample: closing `sample3` (an `OPEN` driver holding
`['a','b']` with `dataReady` set) succeeds and moves to `CLOSED`, but the
buffered bytes, the `dataReady` flag and the recorded strategy all survive;
after a reconfigure and reopen, the pre-close bytes are returned by `read`. -/
theorem close_retains_buffer_and_strategy :
    (sample3.close).1 = Except.ok () ∧
    (sample3.close).2.state = UARTState.CLOSED ∧
    (sample3.close).2.readBuffer = ['a', 'b'] ∧
    (sample3.close).2.dataReady = true ∧
    (sample3.close).2.commMethod = some CommMethod.INTERRUPT ∧
    ((((sample3.close).2.configure UARTConfig.BAUD_RATE 9600).2.openUART
        CommMethod.DMA).2.read 10 []).1 = ReadResult.bytes ['a', 'b'] 2 := by
  decide

/-- Claim C4 as amended: `close` on an `OPEN` driver succeeds and sets the
state to `CLOSED`, changing nothing else — the strategy, the `dataReady`
flag and the buffered-but-unread bytes are all retained, so data received
before `close` remains observable after a later reconfigure/reopen. -/
theorem close_only_sets_state_closed (d : UART)
    (h : d.state = UARTState.OPEN) :
    d.close = (Except.ok (), { d with state := UARTState.CLOSED }) := by
  simp [UART.close, h]

/-- Witness for the amended C4 at `sample3`. -/
theorem close_only_sets_state_closed_witness :
    sample3.close = (Except.ok (), { sample3 with state := UARTState.CLOSED }) :=
  close_only_sets_state_closed sample3 (by decide)

/-- Claim C5 counterexample: `sample4` is reachable through the public API
plus the producer callback, its buffer still holds a byte, yet `dataReady`
is false — `read` cleared the flag unconditionally although it drained only
one of the two buffered bytes, so the ready condition is falsely cleared
while data is still available. -/
theorem dataReady_falsely_cleared_while_bytes_remain :
    Reachable sample4 ∧ sample4.readBuffer ≠ [] ∧ sample4.dataReady = false :=
  ⟨sample4_reachable, by decide, by decide⟩

/-- Claim C5 as amended: only one direction of the claimed invariant holds.
In every state reachable through the public API and the producer callback,
`dataReady = true` implies the receive buffer is non-empty; the converse
fails (see the counterexample), because `read` clears `dataReady` even when
it leaves bytes buffered. -/
theorem reachable_dataReady_imp_buffer_nonempty (d : UART)
    (hd : Reachable d) : d.dataReady = true → d.readBuffer ≠ [] := by
  induction hd with
  | init id =>
      intro hr
      simp [UART.init] at hr
  | configure d config value hd ih =>
      intro hr
      obtain ⟨h1, h2⟩ := configure_receive_frame d config value
      rw [h1] at hr
      rw [h2]
      exact ih hr
  | openStep d m hd ih =>
      intro hr
      obtain ⟨h1, h2⟩ := openUART_receive_frame d m
      rw [h1] at hr
      rw [h2]
      exact ih hr
  | closeStep d hd ih =>
      intro hr
      obtain ⟨h1, h2⟩ := close_receive_frame d
      rw [h1] at hr
      rw [h2]
      exact ih hr
  | readStep d length polled hd ih =>
      intro hr
      rcases read_post_dataReady d length polled with h | h
      · rw [h] at hr ⊢
        exact ih hr
      · rw [h] at hr
        simp at hr
  | writeStep d data f hd ih =>
      intro hr
      rw [write_state_frame d data f] at hr ⊢
      exact ih hr
  | append d chunk hd hopen hne ih =>
      intro _
      simp only [UART.appendReceived]
      intro hcon
      exact hne (List.append_eq_nil.mp hcon).2

/-- Witness for the amended C5 at the reachable state `sample3`, whose
`dataReady` flag is set. -/
theorem reachable_dataReady_imp_buffer_nonempty_witness :
    sample3.readBuffer ≠ [] :=
  reachable_dataReady_imp_buffer_nonempty sample3 sample3_reachable (by decide)

/-- Claim C6 (refuted — the code contradicts its own comment, which reserves
the `cv.wait` "For interrupt or DMA methods"): on an `OPEN` polling driver
with no pending data, when the bounded poll yields no bytes within its
budget (`polled = []`, the timeout case), `read 10` does not return an empty
0-byte success; it falls through to the unconditional `cv.wait` on
`dataReady` and suspends. -/
theorem polling_read_blocks_on_timeout :
    samplePoll.state = UARTState.OPEN ∧
    samplePoll.commMethod = some CommMethod.POLLING ∧
    samplePoll.dataReady = false ∧
    (samplePoll.read 10 []).1 = ReadResult.blocked ∧
    (samplePoll.read 10 []).1 ≠ ReadResult.bytes [] 0 := by
  decide

/-- Claim C7: `write` on an `OPEN` driver delegates to the backend transmit
primitive in a single call and returns the count it accepted, which is at
most the requested length for any backend that accepts a sub-range of the
offered bytes; on a non-`OPEN` driver it fails with NotOpen and changes
nothing. -/
theorem write_delegates_once_and_bounds (f : List Char → Nat)
    (hf : ∀ bs : List Char, f bs ≤ bs.length) (d : UART) (data : List Char) :
    (d.state = UARTState.OPEN →
      d.write data f = (Except.ok (f data), d) ∧ f data ≤ data.length) ∧
    (d.state ≠ UARTState.OPEN →
      d.write data f = (Except.error UARTError.notOpen, d)) := by
  refine ⟨fun h => ⟨?_, hf data⟩, fun h => ?_⟩ <;> simp [UART.write, h]

/-- Witness for C7 with the accept-all backend, on an `OPEN` and on a
`CONFIGURED` driver. -/
theorem write_delegates_once_and_bounds_witness :
    (sample2.write ['H', 'i'] List.length = (Except.ok 2, sample2) ∧
      (2 : Nat) ≤ 2) ∧
    sample1.write ['H'] List.length =
      (Except.error UARTError.notOpen, sample1) :=
  ⟨(write_delegates_once_and_bounds List.length
      (fun bs => Nat.le_refl bs.length) sample2 ['H', 'i']).1 (by decide),
   (write_delegates_once_and_bounds List.length
      (fun bs => Nat.le_refl bs.length) sample1 ['H']).2 (by decide)⟩

/-- Claim C8 (refuted — the spec mandates close-wakes-blocked-reader, the
sketch omits it): `sample2` is `OPEN` with `dataReady = false`, so a reader
suspends in `read`; `close` succeeds but performs no condition-variable
notification (`closeNotifiesReader = false`), and the wait predicate — which
consults only `dataReady`, never `state` — is still false afterwards, so the
suspended reader is neither woken nor able to observe the closed state and
return NotOpen. -/
theorem close_does_not_release_blocked_reader :
    sample2.state = UARTState.OPEN ∧
    sample2.dataReady = false ∧
    (sample2.read 10 []).1 = ReadResult.blocked ∧
    UART.readWaitCondition sample2 = false ∧
    (sample2.close).1 = Except.ok () ∧
    (sample2.close).2.state = UARTState.CLOSED ∧
    UART.readWaitCondition (sample2.close).2 = false ∧
    closeNotifiesReader = false := by
  decide

/-- Claim C9: a successful `configure` call mutates exactly the targeted
configuration field — for each of the four recognized parameters, the other
three configuration fields and the driver id are unchanged. -/
theorem configure_targets_exactly_one_field (d : UART) (value : Int)
    (h : d.state = UARTState.CLOSED) :
    ((d.configure UARTConfig.BAUD_RATE value).2.dataBits = d.dataBits ∧
     (d.configure UARTConfig.BAUD_RATE value).2.parity = d.parity ∧
     (d.configure UARTConfig.BAUD_RATE value).2.stopBits = d.stopBits ∧
     (d.configure UARTConfig.BAUD_RATE value).2.uartId = d.uartId) ∧
    ((d.configure UARTConfig.DATA_BITS value).2.baudRate = d.baudRate ∧
     (d.configure UARTConfig.DATA_BITS value).2.parity = d.parity ∧
     (d.configure UARTConfig.DATA_BITS value).2.stopBits = d.stopBits ∧
     (d.configure UARTConfig.DATA_BITS value).2.uartId = d.uartId) ∧
    ((d.configure UARTConfig.PARITY value).2.baudRate = d.baudRate ∧
     (d.configure UARTConfig.PARITY value).2.dataBits = d.dataBits ∧
     (d.configure UARTConfig.PARITY value).2.stopBits = d.stopBits ∧
     (d.configure UARTConfig.PARITY value).2.uartId = d.uartId) ∧
    ((d.configure UARTConfig.STOP_BITS value).2.baudRate = d.baudRate ∧
     (d.configure UARTConfig.STOP_BITS value).2.dataBits = d.dataBits ∧
     (d.configure UARTConfig.STOP_BITS value).2.parity = d.parity ∧
     (d.configure UARTConfig.STOP_BITS value).2.uartId = d.uartId) := by
  simp [UART.configure, h, UARTConfig.BAUD_RATE, UARTConfig.DATA_BITS,
    UARTConfig.PARITY, UARTConfig.STOP_BITS]

/-- Witness for C9 at a fresh driver with value 7. -/
theorem configure_targets_exactly_one_field_witness :
    ((sample0.configure UARTConfig.BAUD_RATE 7).2.dataBits = sample0.dataBits ∧
     (sample0.configure UARTConfig.BAUD_RATE 7).2.parity = sample0.parity ∧
     (sample0.configure UARTConfig.BAUD_RATE 7).2.stopBits = sample0.stopBits ∧
     (sample0.configure UARTConfig.BAUD_RATE 7).2.uartId = sample0.uartId) ∧
    ((sample0.configure UARTConfig.DATA_BITS 7).2.baudRate = sample0.baudRate ∧
     (sample0.configure UARTConfig.DATA_BITS 7).2.parity = sample0.parity ∧
     (sample0.configure UARTConfig.DATA_BITS 7).2.stopBits = sample0.stopBits ∧
     (sample0.configure UARTConfig.DATA_BITS 7).2.uartId = sample0.uartId) ∧
    ((sample0.configure UARTConfig.PARITY 7).2.baudRate = sample0.baudRate ∧
     (sample0.configure UARTConfig.PARITY 7).2.dataBits = sample0.dataBits ∧
     (sample0.configure UARTConfig.PARITY 7).2.stopBits = sample0.stopBits ∧
     (sample0.configure UARTConfig.PARITY 7).2.uartId = sample0.uartId) ∧
    ((sample0.configure UARTConfig.STOP_BITS 7).2.baudRate = sample0.baudRate ∧
     (sample0.configure UARTConfig.STOP_BITS 7).2.dataBits = sample0.dataBits ∧
     (sample0.configure UARTConfig.STOP_BITS 7).2.parity = sample0.parity ∧
     (sample0.configure UARTConfig.STOP_BITS 7).2.uartId = sample0.uartId) :=
  configure_targets_exactly_one_field sample0 7 (by decide)

/-- Claim C10: `configure` called while `CLOSED` with an unrecognized
parameter (any value outside the four enum values) fails with
InvalidArgument and leaves the driver exactly as it was — the state stays
`CLOSED` and all four configuration fields keep their values, because the
`default:` branch throws before the `state = CONFIGURED` assignment. -/
theorem configure_invalid_argument_atomic (d : UART) (config value : Int)
    (hs : d.state = UARTState.CLOSED)
    (h0 : config ≠ UARTConfig.BAUD_RATE) (h1 : config ≠ UARTConfig.DATA_BITS)
    (h2 : config ≠ UARTConfig.PARITY) (h3 : config ≠ UARTConfig.STOP_BITS) :
    d.configure config value = (Except.error UARTError.invalidConfigArg, d) := by
  simp [UART.configure, hs, h0, h1, h2, h3]

/-- Witness for C10 with the out-of-range raw enum value 5. -/
theorem configure_invalid_argument_atomic_witness :
    (UART.init 3).configure 5 99 =
      (Except.error UARTError.invalidConfigArg, UART.init 3) :=
  configure_invalid_argument_atomic (UART.init 3) 5 99 (by decide) (by decide)
    (by decide) (by decide) (by decide)
